import Mathlib

/-!
Verification of the batch-to-loss pipeline of
`examples/mixtral_mcore/pretrain_megatron_mixtral.py`.

Tensors are modelled as nested lists: a 2D integer tensor of shape
(batch, seq) becomes `List (List Int)`, a float tensor becomes
`List (List ℚ)` (exact rational arithmetic stands in for floating point;
a non-finite float value, such as the NaN produced by dividing by a zero
mask sum, is modelled as `none` of an `Option ℚ`).

External collaborators that are not part of this repository's sources
(`tensor_parallel.broadcast_data`, `megatron.utils.get_ltor_masks_and_position_ids`,
`megatron.utils.average_losses_across_data_parallel_group`, the filesystem
query `os.path.isfile`, the model forward call) are modelled from the
specification's description of their contracts; each such definition is
marked `Modelled from the spec:` in its doc comment.
-/

namespace MixtralPretrain

/-- Configuration fields of the process-wide argument singleton that this
pipeline reads (`get_args()`). -/
structure Args where
  reset_position_ids : Bool
  reset_attention_mask : Bool
  train_data_path : List String
  dataset : String
  max_padding_length : Nat
  split : String
  seed : Nat
  mmap_warmup : Bool
deriving DecidableEq

/-- The tokenizer adapter surface used by the pipeline: it exposes a
pad-token id (`tokenizer.pad_token_id`). -/
structure Tokenizer where
  pad_token_id : Int
deriving DecidableEq

/-- A raw batch record fetched from the data iterator: a mapping from field
names to 2D 64-bit integer tensors (64-bit integers are modelled as `Int`;
the pipeline only slices and compares them, never wraps). -/
abbrev Record := List (String × List (List Int))

/-- The five-tuple produced by `get_batch`:
`(tokens, labels, loss_mask, attention_mask, position_ids)`. -/
structure TrainingBatch where
  tokens : List (List Int)
  labels : List (List Int)
  loss_mask : List (List ℚ)
  attention_mask : List (List Bool)
  position_ids : List (List Nat)
deriving DecidableEq

/-- The model forward call consumed by `forward_step`:
`model(tokens, position_ids, attention_mask, labels=labels)` returns a
per-token loss tensor. -/
abbrev Model :=
  List (List Int) → List (List Nat) → List (List Bool) → List (List Int) → List (List ℚ)

/-- Modelled from the spec: `tensor_parallel.broadcast_data(keys, data, datatype)`.
Only one rank in each model-sharding group is the authoritative data source;
other ranks pass `none` and rely entirely on the broadcast's fill-in
semantics, every rank receiving the owning rank's batch bit-identically.
`groupSource` is the batch held by the owning rank of the group. -/
def broadcast_data (keys : List String) (data : Option Record)
    (groupSource : Record) : Record :=
  let _ := keys
  data.getD groupSource

/-- Modelled from the spec: position ids with the reset-position policy
enabled are sequential per sequence but restart at 0 immediately after each
end-of-document boundary token. `p` is the position of the current token. -/
def resetPositionsAux (eod : Int) : List Int → Nat → List Nat
  | [], _ => []
  | t :: ts, p => p :: resetPositionsAux eod ts (if t = eod then 0 else p + 1)

/-- Modelled from the spec: position ids of one sequence — sequential
`0..seq_len-1` by default, restarting at document boundaries when the
reset-position policy is enabled. -/
def rowPositionIds (reset : Bool) (eod : Int) (row : List Int) : List Nat :=
  if reset then resetPositionsAux eod row 0 else List.range row.length

/-- Modelled from the spec: the document segment index of a position — the
number of end-of-document boundary tokens occurring strictly before it. -/
def docId (eod : Int) (row : List Int) (i : Nat) : Nat :=
  ((row.take i).filter (fun t => t = eod)).length

/-- Modelled from the spec: the raw (non-loss) causal attention mask of one
sequence — position `i` may attend position `j` iff `j ≤ i`, additionally
restricted to the same document segment when the reset-attention-mask policy
is enabled (block-diagonal causal mask per document). This artifact is the
one the pipeline discards. -/
def rawCausalMask (resetAttn : Bool) (eod : Int) (row : List Int) :
    List (List Bool) :=
  (List.range row.length).map (fun i =>
    (List.range row.length).map (fun j =>
      decide (j ≤ i) && (!resetAttn || decide (docId eod row j = docId eod row i))))

/-- Modelled from the spec: `megatron.utils.get_ltor_masks_and_position_ids`
(not part of this repository's sources). Returns, in order: the raw causal
attention mask; the loss mask, 1.0 everywhere except 0.0 at positions holding
the end-of-document token when `eod_mask_loss` is enabled (the loss mask marks
exactly the valid supervision targets); and the position ids, sequential per
sequence and restarting at document boundaries when the reset-position policy
is enabled. -/
def get_ltor_masks_and_position_ids (data : List (List Int)) (eod_token : Int)
    (reset_position_ids : Bool) (reset_attention_mask : Bool)
    (eod_mask_loss : Bool) :
    List (List (List Bool)) × List (List ℚ) × List (List Nat) :=
  (data.map (rawCausalMask reset_attention_mask eod_token),
   data.map (fun row => row.map (fun t =>
     if eod_mask_loss ∧ t = eod_token then (0 : ℚ) else 1)),
   data.map (rowPositionIds reset_position_ids eod_token))

/-- Embedding of `get_batch(data_iterator)`. The iterator is an explicit
list of records (`none` on ranks that do not own the data-loading role);
`next` on an exhausted iterator (StopIteration) and a missing `input_ids`
field (KeyError) are modelled as `none`. Returns the five-tuple together
with the remaining iterator, making the consumption of exactly one element
explicit. -/
def get_batch (args : Args) (tokenizer : Tokenizer) (groupSource : Record)
    (data_iterator : Option (List Record)) :
    Option (TrainingBatch × Option (List Record)) :=
  let fetched : Option (Option Record × Option (List Record)) :=
    match data_iterator with
    | some [] => none
    | some (d :: rest) => some (some d, some rest)
    | none => some (none, none)
  match fetched with
  | none => none
  | some (data, rest) =>
    let data_b := broadcast_data ["input_ids", "labels"] data groupSource
    match List.lookup "input_ids" data_b with
    | none => none
    | some tokens_ =>
      let labels := tokens_.map (fun row => row.drop 1)
      let tokens := tokens_.map (fun row => row.dropLast)
      let attention_mask :=
        tokens.map (fun row => row.map (fun t => decide (t ≠ tokenizer.pad_token_id)))
      let masks := get_ltor_masks_and_position_ids tokens tokenizer.pad_token_id
        args.reset_position_ids args.reset_attention_mask true
      some (⟨tokens, labels, masks.2.1, attention_mask, masks.2.2⟩, rest)

/-- Floating-point division where a zero denominator produces a non-finite
value (NaN or ±Inf), modelled as `none`; otherwise exact. -/
def fdiv (num den : ℚ) : Option ℚ :=
  if den = 0 then none else some (num / den)

/-- Sum of a list of possibly non-finite values; a non-finite summand makes
the sum non-finite, as in floating point. -/
def optSum : List (Option ℚ) → Option ℚ
  | [] => some 0
  | x :: xs => Option.bind x (fun a => (optSum xs).map (fun b => a + b))

/-- Modelled from the spec:
`megatron.utils.average_losses_across_data_parallel_group` performs an
all-reduce mean over the data-parallel replica group — every worker's value
contributes with equal weight regardless of its token count. `groupLosses`
lists, for the one scalar being averaged, each worker's local value. -/
def average_losses_across_data_parallel_group (groupLosses : List (Option ℚ)) :
    Option ℚ :=
  (optSum groupLosses).map (fun s => s / (groupLosses.length : ℚ))

/-- Embedding of `loss_func(loss_mask, output_tensor)`. `dpPeerLosses` lists
the local losses contributed by the other workers of the data-parallel group
to the all-reduce (the collective is SPMD: every worker computes the same
average). The `.float()` upcast is the identity on exact rationals. -/
def loss_func (dpPeerLosses : List (Option ℚ)) (loss_mask : List (List ℚ))
    (output_tensor : List (List ℚ)) :
    Option ℚ × List (String × Option ℚ) :=
  let losses := output_tensor.flatten
  let lm := loss_mask.flatten
  let loss := fdiv (List.zipWith (fun a b => a * b) losses lm).sum lm.sum
  let averaged_loss := average_losses_across_data_parallel_group (loss :: dpPeerLosses)
  (loss, [("lm loss", averaged_loss)])

/-- Embedding of `forward_step(data_iterator, model)`: fetch a batch via
`get_batch`, call the model on tokens, position ids and attention mask with
the labels, and return the output tensor paired with the loss-function
closure bound to this step's loss mask. The remaining iterator is returned
as the third component to make consumption explicit; the timer calls are
external telemetry with no effect on the data path. -/
def forward_step (args : Args) (tokenizer : Tokenizer)
    (dpPeerLosses : List (Option ℚ)) (groupSource : Record)
    (data_iterator : Option (List Record)) (model : Model) :
    Option (List (List ℚ) ×
      (List (List ℚ) → Option ℚ × List (String × Option ℚ)) ×
      Option (List Record)) :=
  match get_batch args tokenizer groupSource data_iterator with
  | none => none
  | some (b, rest) =>
    let output_tensor := model b.tokens b.position_ids b.attention_mask b.labels
    some (output_tensor, loss_func dpPeerLosses b.loss_mask, rest)

/-- The dataset-builder invocation chosen by the provider: either the
original-format builder (`build_pretrain_dataset_from_original`, taking only
the dataset-type tag) or the indexed-corpus builder
(`build_pretrain_dataset_from_idxmap` with its full keyword-argument list).
Each invocation yields the whole (train, valid, test) triple. -/
inductive DatasetBuild where
  | fromOriginal (dataset_type : String)
  | fromIdxmap ( data_prefix : List String) (max_padding_length : Nat)
      (dataset_type : String) (splits_string : String)
      (train_valid_test_num_samples : List Nat) (seed : Nat) (skip_warmup : Bool)
deriving DecidableEq

/-- Embedding of `train_valid_test_datasets_provider(train_val_test_num_samples)`.
`isFile` models the filesystem query `os.path.isfile`; indexing an empty data
path list (IndexError) is modelled as `none`. -/
def train_valid_test_datasets_provider (isFile : String → Bool) (args : Args)
    (train_val_test_num_samples : List Nat) : Option DatasetBuild :=
  match args.train_data_path with
  | [] => none
  | p :: _ =>
    if isFile p then
      some (DatasetBuild.fromOriginal args.dataset)
    else
      some (DatasetBuild.fromIdxmap args.train_data_path args.max_padding_length
        args.dataset args.split train_val_test_num_samples args.seed
        (!args.mmap_warmup))

/-! ## Helper lemmas -/

/-- `getD` commutes with `map` when the default is a fixed point of the
mapped function. -/
theorem getD_map_fix {α : Type} (f : α → α) (d : α) (hd : f d = d) :
    ∀ (l : List α) (b : Nat), (l.map f).getD b d = f (l.getD b d)
  | [], _ => by simp [List.getD, hd]
  | _ :: _, 0 => rfl
  | _ :: l, b + 1 => getD_map_fix f d hd l b

/-- Reading a row of a row-wise mapped 2D tensor, with the empty row as the
out-of-range default on both sides. -/
theorem getD_map_nil {α β : Type} (f : List α → List β) (hf : f [] = []) :
    ∀ (l : List (List α)) (b : Nat), (l.map f).getD b [] = f (l.getD b [])
  | [], _ => by simp [List.getD, hf]
  | _ :: _, 0 => rfl
  | _ :: l, b + 1 => getD_map_nil f hf l b

/-- Reading position `i` of a tail slice reads position `i+1` of the list. -/
theorem getD_drop_one {α : Type} (d : α) :
    ∀ (l : List α) (i : Nat), (l.drop 1).getD i d = l.getD (i + 1) d
  | [], _ => rfl
  | _ :: _, _ => rfl

/-- `getD` commutes with `map` at in-range indices, for any defaults. -/
theorem getD_map_lt {α β : Type} (f : α → β) (d : α) (d' : β) :
    ∀ (l : List α) (i : Nat), i < l.length → (l.map f).getD i d' = f (l.getD i d)
  | _ :: _, 0, _ => rfl
  | _ :: l, i + 1, h => getD_map_lt f d d' l i (Nat.lt_of_succ_lt_succ h)

/-- The sum of an elementwise product, written positionally over the index
range, agrees with the `zipWith` form when the lengths match. -/
theorem sum_zipWith_mul_eq : ∀ (a b : List ℚ), a.length = b.length →
    (List.zipWith (fun x y => x * y) a b).sum =
      ((List.range b.length).map (fun i => a.getD i 0 * b.getD i 0)).sum
  | [], [], _ => rfl
  | [], _ :: _, h => by simp at h
  | _ :: _, [], h => by simp at h
  | x :: xs, y :: ys, h => by
    have h' : xs.length = ys.length := Nat.succ.inj (by simpa using h)
    rw [List.zipWith_cons_cons, List.sum_cons, List.length_cons,
      List.range_succ_eq_map, List.map_cons, List.sum_cons, List.map_map]
    rw [sum_zipWith_mul_eq xs ys h']
    rfl

/-- Concrete configuration with both reset policies disabled, used to
exercise the theorems on closed inputs. -/
def args0 : Args :=
  ⟨false, false, ["corpus.json"], "LLama-Pretrain-Raw", 128, "99,1,0", 1234, false⟩

/-- Concrete configuration with the reset-position policy enabled. -/
def args1 : Args :=
  ⟨true, true, ["corpus.json"], "LLama-Pretrain-Raw", 128, "99,1,0", 1234, true⟩

/-- Concrete tokenizer whose pad-token id is 0. -/
def tok0 : Tokenizer := ⟨0⟩

/-! ## Claims -/

/-- C1: for every raw batch whose `input_ids` tensor has shape
(batch, seq_len+1), `get_batch` returns tokens equal to all but the last
column and labels equal to all but the first column, so that
`labels[b][i] = input_ids[b][i+1]` at every valid position. -/
theorem get_batch_causal_shift (args : Args) (tok : Tokenizer) (gs : Record)
    (rec : Record) (rest : List Record) (input_ids : List (List Int)) (s : Nat)
    (hlook : List.lookup "input_ids" rec = some input_ids)
    (_hshape : ∀ row ∈ input_ids, row.length = s + 1) :
    ∃ tb : TrainingBatch,
      get_batch args tok gs (some (rec :: rest)) = some (tb, some rest) ∧
      tb.tokens = input_ids.map (fun row => row.dropLast) ∧
      tb.labels = input_ids.map (fun row => row.drop 1) ∧
      ∀ b i, b < input_ids.length → i < s →
        (tb.labels.getD b []).getD i 0 = (input_ids.getD b []).getD (i + 1) 0 := by
  refine ⟨⟨input_ids.map (fun row => row.dropLast),
      input_ids.map (fun row => row.drop 1),
      (get_ltor_masks_and_position_ids (input_ids.map (fun row => row.dropLast))
        tok.pad_token_id args.reset_position_ids args.reset_attention_mask true).2.1,
      (input_ids.map (fun row => row.dropLast)).map
        (fun row => row.map (fun t => decide (t ≠ tok.pad_token_id))),
      (get_ltor_masks_and_position_ids (input_ids.map (fun row => row.dropLast))
        tok.pad_token_id args.reset_position_ids args.reset_attention_mask true).2.2⟩,
    ?_, rfl, rfl, ?_⟩
  · simp only [get_batch, broadcast_data, Option.getD, hlook]
  · intro b i _ _
    rw [getD_map_fix (fun row => row.drop 1) [] rfl input_ids b, getD_drop_one]

/-- C1 witness: evaluation at the single-sequence batch `[[5, 6, 7]]`. -/
theorem get_batch_causal_shift_witness :
    ∃ tb : TrainingBatch,
      get_batch args0 tok0 [] (some ([("input_ids", [[5, 6, 7]])] :: [])) =
        some (tb, some []) ∧
      tb.tokens = [[5, 6, 7]].map (fun row => row.dropLast) ∧
      tb.labels = [[5, 6, 7]].map (fun row => row.drop 1) ∧
      ∀ b i, b < [[5, 6, 7]].length → i < 2 →
        (tb.labels.getD b []).getD i 0 = ([[5, 6, 7]].getD b []).getD (i + 1) 0 :=
  get_batch_causal_shift args0 tok0 [] [("input_ids", [[5, 6, 7]])] [] [[5, 6, 7]] 2
    (by decide) (by decide)

/-- C2: `loss_func` computes the local loss as the sum over all flattened
positions of loss times mask, divided by the sum of the mask. -/
theorem loss_func_masked_mean (peers : List (Option ℚ))
    (loss_mask output_tensor : List (List ℚ))
    (hlen : output_tensor.flatten.length = loss_mask.flatten.length)
    (hmask : loss_mask.flatten.sum ≠ 0) :
    (loss_func peers loss_mask output_tensor).1 =
      some (((List.range loss_mask.flatten.length).map (fun i =>
          output_tensor.flatten.getD i 0 * loss_mask.flatten.getD i 0)).sum /
        loss_mask.flatten.sum) := by
  simp only [loss_func, fdiv, if_neg hmask]
  rw [sum_zipWith_mul_eq _ _ hlen]

/-- C2 witness: for losses `[1, 2, 3, 4]` and mask `[1, 0, 1, 0]` the local
loss is 2. -/
theorem loss_func_masked_mean_witness :
    (loss_func [] [[1, 0, 1, 0]] [[1, 2, 3, 4]]).1 = some 2 := by
  rw [loss_func_masked_mean [] [[1, 0, 1, 0]] [[1, 2, 3, 4]] (by decide) (by norm_num)]
  simp [List.range_succ]
  norm_num

/-- C3: on a batch whose loss mask sums to 0, the floating-point division
inside `loss_func` produces a non-finite value (modelled `none`) — the error
is signalled by the result, which is never an ordinary finite loss value. -/
theorem loss_func_zero_mask_nonfinite (peers : List (Option ℚ))
    (loss_mask output_tensor : List (List ℚ))
    (hmask : loss_mask.flatten.sum = 0) :
    (loss_func peers loss_mask output_tensor).1 = none ∧
    ∀ q : ℚ, (loss_func peers loss_mask output_tensor).1 ≠ some q := by
  have h : (loss_func peers loss_mask output_tensor).1 = none := by
    simp [loss_func, fdiv, hmask]
  exact ⟨h, fun q hq => by rw [h] at hq; exact Option.noConfusion hq⟩

/-- C3 witness: an all-zero mask over the losses `[5, 7]` yields the
non-finite sentinel, not an ordinary loss value. -/
theorem loss_func_zero_mask_nonfinite_witness :
    (loss_func [] [[0, 0]] [[5, 7]]).1 = none ∧
    ∀ q : ℚ, (loss_func [] [[0, 0]] [[5, 7]]).1 ≠ some q :=
  loss_func_zero_mask_nonfinite [] [[0, 0]] [[5, 7]] (by norm_num)

/-- C4: the attention mask returned by `get_batch` is the element-wise
pad-inequality test over the tokens, while the first (raw non-loss) mask
returned by the mask-derivation helper is discarded: the five-tuple takes
only the loss mask and position ids from the helper, the attention mask
being computed separately. -/
theorem get_batch_attention_mask_spec (args : Args) (tok : Tokenizer)
    (gs : Record) (rec : Record) (rest : List Record) (input_ids : List (List Int))
    (hlook : List.lookup "input_ids" rec = some input_ids) :
    ∃ tb : TrainingBatch,
      get_batch args tok gs (some (rec :: rest)) = some (tb, some rest) ∧
      (∀ b i, b < tb.tokens.length → i < (tb.tokens.getD b []).length →
        (tb.attention_mask.getD b []).getD i false =
          decide ((tb.tokens.getD b []).getD i 0 ≠ tok.pad_token_id)) ∧
      tb.loss_mask = (get_ltor_masks_and_position_ids tb.tokens tok.pad_token_id
        args.reset_position_ids args.reset_attention_mask true).2.1 ∧
      tb.position_ids = (get_ltor_masks_and_position_ids tb.tokens tok.pad_token_id
        args.reset_position_ids args.reset_attention_mask true).2.2 := by
  refine ⟨⟨input_ids.map (fun row => row.dropLast),
      input_ids.map (fun row => row.drop 1),
      (get_ltor_masks_and_position_ids (input_ids.map (fun row => row.dropLast))
        tok.pad_token_id args.reset_position_ids args.reset_attention_mask true).2.1,
      (input_ids.map (fun row => row.dropLast)).map
        (fun row => row.map (fun t => decide (t ≠ tok.pad_token_id))),
      (get_ltor_masks_and_position_ids (input_ids.map (fun row => row.dropLast))
        tok.pad_token_id args.reset_position_ids args.reset_attention_mask true).2.2⟩,
    ?_, ?_, rfl, rfl⟩
  · simp only [get_batch, broadcast_data, Option.getD, hlook]
  · intro b i _ hi
    rw [getD_map_nil (fun row => row.map (fun t => decide (t ≠ tok.pad_token_id))) rfl,
      getD_map_lt (fun t => decide (t ≠ tok.pad_token_id)) 0 false _ i hi]

/-- C4 witness: evaluation at the batch `[[0, 5, 0]]` with pad id 0. -/
theorem get_batch_attention_mask_spec_witness :
    ∃ tb : TrainingBatch,
      get_batch args0 tok0 [] (some ([("input_ids", [[0, 5, 0]])] :: [])) =
        some (tb, some []) ∧
      (∀ b i, b < tb.tokens.length → i < (tb.tokens.getD b []).length →
        (tb.attention_mask.getD b []).getD i false =
          decide ((tb.tokens.getD b []).getD i 0 ≠ tok0.pad_token_id)) ∧
      tb.loss_mask = (get_ltor_masks_and_position_ids tb.tokens tok0.pad_token_id
        args0.reset_position_ids args0.reset_attention_mask true).2.1 ∧
      tb.position_ids = (get_ltor_masks_and_position_ids tb.tokens tok0.pad_token_id
        args0.reset_position_ids args0.reset_attention_mask true).2.2 :=
  get_batch_attention_mask_spec args0 tok0 [] [("input_ids", [[0, 5, 0]])] []
    [[0, 5, 0]] (by decide)

/-- `optSum` over a list of finite values is the finite sum. -/
theorem optSum_map_some : ∀ qs : List ℚ, optSum (qs.map some) = some qs.sum
  | [] => rfl
  | q :: qs => by simp [optSum, optSum_map_some qs]

/-- C5: `loss_func` returns the pair of the local masked-mean loss and a
logging dictionary with exactly the key "lm loss" holding the equal-weight
cross-worker average of the local losses of the data-parallel group. -/
theorem loss_func_pair_and_logging (peerLosses : List ℚ)
    (loss_mask output_tensor : List (List ℚ))
    (hmask : loss_mask.flatten.sum ≠ 0) :
    loss_func (peerLosses.map some) loss_mask output_tensor =
      (some ((List.zipWith (fun a b => a * b) output_tensor.flatten
          loss_mask.flatten).sum / loss_mask.flatten.sum),
       [("lm loss",
         some (((List.zipWith (fun a b => a * b) output_tensor.flatten
             loss_mask.flatten).sum / loss_mask.flatten.sum + peerLosses.sum) /
           ((peerLosses.length + 1 : Nat) : ℚ)))]) := by
  have h1 := optSum_map_some
    ((List.zipWith (fun a b => a * b) output_tensor.flatten loss_mask.flatten).sum /
      loss_mask.flatten.sum :: peerLosses)
  simp only [List.map_cons, List.sum_cons] at h1
  simp only [loss_func, fdiv, if_neg hmask,
    average_losses_across_data_parallel_group, h1, Option.map_some',
    List.length_cons, List.length_map]

/-- C5 witness: a worker with local masked mean 2 and a peer with local
masked mean 4 log the equal-weight average 3 under the single key "lm loss". -/
theorem loss_func_pair_and_logging_witness :
    loss_func [some 4] [[1, 0, 1, 0]] [[1, 2, 3, 4]] =
      (some 2, [("lm loss", some 3)]) := by
  have h := loss_func_pair_and_logging [4] [[1, 0, 1, 0]] [[1, 2, 3, 4]] (by norm_num)
  simp only [List.map_cons, List.map_nil] at h
  rw [h]
  norm_num

/-- C6: the dataset provider inspects only the first data-path entry; an
existing regular file selects the original-format builder with only the
dataset-type tag (the requested sample counts are ignored), anything else
selects the indexed-corpus builder with exactly the configured arguments and
a skip-warmup flag negating the mmap-warmup flag; the single choice yields
all three of train/valid/test. -/
theorem datasets_provider_selection (isFile : String → Bool) (args : Args)
    (nums nums2 : List Nat) (p : String) (rest : List String)
    (hpath : args.train_data_path = p :: rest) :
    (isFile p = true →
      train_valid_test_datasets_provider isFile args nums =
        some (DatasetBuild.fromOriginal args.dataset)) ∧
    (isFile p = false →
      train_valid_test_datasets_provider isFile args nums =
        some (DatasetBuild.fromIdxmap args.train_data_path args.max_padding_length
          args.dataset args.split nums args.seed (!args.mmap_warmup))) ∧
    (isFile p = true →
      train_valid_test_datasets_provider isFile args nums =
        train_valid_test_datasets_provider isFile args nums2) ∧
    (∀ isFile2 : String → Bool, isFile2 p = isFile p →
      train_valid_test_datasets_provider isFile2 args nums =
        train_valid_test_datasets_provider isFile args nums) := by
  refine ⟨fun h => ?_, fun h => ?_, fun h => ?_, fun isFile2 h => ?_⟩ <;>
    simp [train_valid_test_datasets_provider, hpath, h]

/-- C6 witness: evaluation with a filesystem in which the configured first
path entry exists as a regular file, and one in which it does not. -/
theorem datasets_provider_selection_witness :
    ((fun s => s == "corpus.json") "corpus.json" = true →
      train_valid_test_datasets_provider (fun s => s == "corpus.json") args0 [10, 2, 1] =
        some (DatasetBuild.fromOriginal args0.dataset)) ∧
    ((fun s => s == "corpus.json") "corpus.json" = false →
      train_valid_test_datasets_provider (fun s => s == "corpus.json") args0 [10, 2, 1] =
        some (DatasetBuild.fromIdxmap args0.train_data_path args0.max_padding_length
          args0.dataset args0.split [10, 2, 1] args0.seed (!args0.mmap_warmup))) ∧
    ((fun s => s == "corpus.json") "corpus.json" = true →
      train_valid_test_datasets_provider (fun s => s == "corpus.json") args0 [10, 2, 1] =
        train_valid_test_datasets_provider (fun s => s == "corpus.json") args0 [7, 7, 7]) ∧
    (∀ isFile2 : String → Bool, isFile2 "corpus.json" = (fun s => s == "corpus.json") "corpus.json" →
      train_valid_test_datasets_provider isFile2 args0 [10, 2, 1] =
        train_valid_test_datasets_provider (fun s => s == "corpus.json") args0 [10, 2, 1]) :=
  datasets_provider_selection (fun s => s == "corpus.json") args0 [10, 2, 1] [7, 7, 7]
    "corpus.json" [] (by decide)

/-- C8: a record carrying an `input_ids` tensor of shape (batch, seq_len+1)
makes `get_batch` succeed with the five-tuple; no error branch is reached and
no field other than `input_ids` is consulted. -/
theorem get_batch_total_on_input_ids (args : Args) (tok : Tokenizer)
    (gs : Record) (rec : Record) (rest : List Record) (grid : List (List Int))
    (s : Nat) (hlook : List.lookup "input_ids" rec = some grid)
    (_hshape : ∀ row ∈ grid, row.length = s + 1) :
    ∃ tb : TrainingBatch,
      get_batch args tok gs (some (rec :: rest)) = some (tb, some rest) := by
  refine ⟨⟨grid.map (fun row => row.dropLast),
      grid.map (fun row => row.drop 1),
      (get_ltor_masks_and_position_ids (grid.map (fun row => row.dropLast))
        tok.pad_token_id args.reset_position_ids args.reset_attention_mask true).2.1,
      (grid.map (fun row => row.dropLast)).map
        (fun row => row.map (fun t => decide (t ≠ tok.pad_token_id))),
      (get_ltor_masks_and_position_ids (grid.map (fun row => row.dropLast))
        tok.pad_token_id args.reset_position_ids args.reset_attention_mask true).2.2⟩, ?_⟩
  simp only [get_batch, broadcast_data, Option.getD, hlook]

/-- C8 witness: a record holding nothing but `input_ids` of shape (1, 2). -/
theorem get_batch_total_on_input_ids_witness :
    ∃ tb : TrainingBatch,
      get_batch args0 tok0 [] (some ([("input_ids", [[1, 2]])] :: [])) =
        some (tb, some []) :=
  get_batch_total_on_input_ids args0 tok0 [] [("input_ids", [[1, 2]])] [] [[1, 2]] 1
    (by decide) (by decide)

/-- C10: `get_batch` hands the mask-derivation helper the tokenizer's pad
token as the end-of-document token with the eod-mask-loss flag hardcoded
true: pad positions carry loss mask 0 (are excluded from supervision), and
the pad token is the document boundary at which the reset-position policy
restarts the position ids. -/
theorem get_batch_pad_supervision (args : Args) (tok : Tokenizer)
    (gs : Record) (rec : Record) (rest : List Record) (input_ids : List (List Int))
    (hlook : List.lookup "input_ids" rec = some input_ids) :
    ∃ tb : TrainingBatch,
      get_batch args tok gs (some (rec :: rest)) = some (tb, some rest) ∧
      tb.loss_mask = tb.tokens.map (fun row => row.map (fun t =>
        if t = tok.pad_token_id then (0 : ℚ) else 1)) ∧
      (∀ b i, b < tb.tokens.length → i < (tb.tokens.getD b []).length →
        (tb.tokens.getD b []).getD i 0 = tok.pad_token_id →
        (tb.loss_mask.getD b []).getD i 0 = 0) ∧
      (args.reset_position_ids = true →
        tb.position_ids = tb.tokens.map
          (fun row => resetPositionsAux tok.pad_token_id row 0)) := by
  refine ⟨⟨input_ids.map (fun row => row.dropLast),
      input_ids.map (fun row => row.drop 1),
      (get_ltor_masks_and_position_ids (input_ids.map (fun row => row.dropLast))
        tok.pad_token_id args.reset_position_ids args.reset_attention_mask true).2.1,
      (input_ids.map (fun row => row.dropLast)).map
        (fun row => row.map (fun t => decide (t ≠ tok.pad_token_id))),
      (get_ltor_masks_and_position_ids (input_ids.map (fun row => row.dropLast))
        tok.pad_token_id args.reset_position_ids args.reset_attention_mask true).2.2⟩,
    ?_, ?_, ?_, ?_⟩
  · simp only [get_batch, broadcast_data, Option.getD, hlook]
  · simp [get_ltor_masks_and_position_ids]
  · intro b i _ hi hpad
    have hmask : (get_ltor_masks_and_position_ids
        (input_ids.map (fun row => row.dropLast)) tok.pad_token_id
        args.reset_position_ids args.reset_attention_mask true).2.1 =
        (input_ids.map (fun row => row.dropLast)).map (fun row => row.map (fun t =>
          if t = tok.pad_token_id then (0 : ℚ) else 1)) := by
      simp [get_ltor_masks_and_position_ids]
    rw [hmask,
      getD_map_nil (fun row => row.map (fun t =>
        if t = tok.pad_token_id then (0 : ℚ) else 1)) rfl,
      getD_map_lt (fun t => if t = tok.pad_token_id then (0 : ℚ) else 1) 0 0 _ i hi,
      hpad, if_pos rfl]
  · intro hreset
    simp [get_ltor_masks_and_position_ids, rowPositionIds, hreset]

/-- C10 witness: with pad id 0 and the reset policies enabled, the batch
`[[7, 0, 5, 6]]` yields loss mask 0 exactly at the pad position and position
ids restarting right after it. -/
theorem get_batch_pad_supervision_witness :
    ∃ tb : TrainingBatch,
      get_batch args1 tok0 [] (some ([("input_ids", [[7, 0, 5, 6]])] :: [])) =
        some (tb, some []) ∧
      tb.loss_mask = tb.tokens.map (fun row => row.map (fun t =>
        if t = tok0.pad_token_id then (0 : ℚ) else 1)) ∧
      (∀ b i, b < tb.tokens.length → i < (tb.tokens.getD b []).length →
        (tb.tokens.getD b []).getD i 0 = tok0.pad_token_id →
        (tb.loss_mask.getD b []).getD i 0 = 0) ∧
      (args1.reset_position_ids = true →
        tb.position_ids = tb.tokens.map
          (fun row => resetPositionsAux tok0.pad_token_id row 0)) :=
  get_batch_pad_supervision args1 tok0 [] [("input_ids", [[7, 0, 5, 6]])] []
    [[7, 0, 5, 6]] (by decide)

/-- On a rank whose data iterator is absent, `get_batch` consumes nothing:
whenever it succeeds, the residual iterator is still absent. -/
theorem get_batch_none_iterator (args : Args) (tok : Tokenizer) (gs : Record)
    (b : TrainingBatch) (r : Option (List Record))
    (h : get_batch args tok gs none = some (b, r)) : r = none := by
  simp only [get_batch] at h
  cases hl : List.lookup "input_ids" (broadcast_data ["input_ids", "labels"] none gs) with
  | none => rw [hl] at h; exact absurd h (by simp)
  | some g =>
    rw [hl] at h
    simp only [Option.some.injEq, Prod.mk.injEq] at h
    exact h.2.symm

/-- C7: `forward_step` consumes exactly one element of a present data
iterator (and none of an absent one), takes the five-tuple from `get_batch`,
calls the model as `model tokens position_ids attention_mask labels`, and
returns the output tensor paired with a loss closure whose invocation on any
output tensor is `loss_func` applied to this step's loss mask and that
tensor; the embedding is a pure function, so there are no further effects or
retries at this layer. -/
theorem forward_step_contract (args : Args) (tok : Tokenizer)
    (peers : List (Option ℚ)) (gs : Record) (model : Model)
    (d : Record) (rest : List Record) (tb : TrainingBatch)
    (hgb : get_batch args tok gs (some (d :: rest)) = some (tb, some rest)) :
    (∃ f, forward_step args tok peers gs (some (d :: rest)) model =
        some (model tb.tokens tb.position_ids tb.attention_mask tb.labels,
          f, some rest) ∧
      ∀ out, f out = loss_func peers tb.loss_mask out) ∧
    (∀ o f it, forward_step args tok peers gs none model = some (o, f, it) →
      it = none) := by
  constructor
  · exact ⟨loss_func peers tb.loss_mask, by simp [forward_step, hgb], fun _ => rfl⟩
  · intro o f it h
    simp only [forward_step] at h
    cases hg : get_batch args tok gs none with
    | none => rw [hg] at h; exact absurd h (by simp)
    | some pr =>
      rw [hg] at h
      simp only [Option.some.injEq, Prod.mk.injEq] at h
      exact h.2.2 ▸ get_batch_none_iterator args tok gs pr.1 pr.2 (by rw [hg])

/-- C7 witness: evaluation at the single-sequence batch `[[5, 6, 7]]` and an
explicit model. -/
theorem forward_step_contract_witness :
    (∃ f, forward_step args0 tok0 [] [] (some ([("input_ids", [[5, 6, 7]])] :: []))
        (fun _ _ _ _ => [[1, 2]]) =
        some ((fun _ _ _ _ => [[1, 2]] : Model)
            (⟨[[5, 6]], [[6, 7]], [[1, 1]], [[true, true]], [[0, 1]]⟩ : TrainingBatch).tokens
          (⟨[[5, 6]], [[6, 7]], [[1, 1]], [[true, true]], [[0, 1]]⟩ : TrainingBatch).position_ids
          (⟨[[5, 6]], [[6, 7]], [[1, 1]], [[true, true]], [[0, 1]]⟩ : TrainingBatch).attention_mask
          (⟨[[5, 6]], [[6, 7]], [[1, 1]], [[true, true]], [[0, 1]]⟩ : TrainingBatch).labels,
          f, some []) ∧
      ∀ out, f out = loss_func []
        (⟨[[5, 6]], [[6, 7]], [[1, 1]], [[true, true]], [[0, 1]]⟩ : TrainingBatch).loss_mask out) ∧
    (∀ o f it, forward_step args0 tok0 [] [] none (fun _ _ _ _ => [[1, 2]]) =
        some (o, f, it) → it = none) :=
  forward_step_contract args0 tok0 [] [] (fun _ _ _ _ => [[1, 2]])
    [("input_ids", [[5, 6, 7]])] []
    ⟨[[5, 6]], [[6, 7]], [[1, 1]], [[true, true]], [[0, 1]]⟩ rfl

end MixtralPretrain
